import Mathlib

/-!
Verification of the geopandas batch-geocoding core and the version-reporting
helper against their specification.

The geocoding core (`geopandas/tools/geocoding.py`: `geocode`,
`reverse_geocode`, `_prepare_geocode_result` and the per-query loop `_query`)
is not among the provided source files; only its test-suite
(`geopandas/tests/test_geocode.py`) is.  Those components are therefore
modelled from the specification (sections 3, 4.1, 4.2, 4.3, 6 and 7 of the
spec), faithful to its words, and the claims are settled against that model.
`_show_versions.py` is present and `_get_deps_info` is embedded from its
source.

Coordinates are rational numbers; the external provider is modelled as a pair
of stateful operations that may raise (return an `Except.error`).  The drivers
additionally return the trace of queries actually submitted to the provider,
which is how "zero provider calls" and "one call per query, in input order"
are expressed.
-/

namespace Geocoding

/-- A point geometry: either the empty point (`Point()`, zero coordinates) or
a 2-D point with x and y coordinates. -/
inductive GPoint where
  | empty : GPoint
  | pt (x y : ℚ) : GPoint
deriving DecidableEq

/-- The x/y coordinate list of a point: empty for the empty point. -/
def GPoint.coords : GPoint → List ℚ
  | GPoint.empty => []
  | GPoint.pt x y => [x, y]

/-- Raw Provider Result (spec section 3): either `None` (the provider found
nothing) or a pair of an optional label and an optional coordinate pair. -/
def RawResult : Type := Option (Option String × Option (ℚ × ℚ))

/-- Mode flag passed to the normalizer (spec section 4.1): forward geocoding
or reverse geocoding. -/
inductive Mode where
  | forward : Mode
  | reverse : Mode
deriving DecidableEq

/-- Modelled from the spec: the Geocode-Result Normalizer of
`geopandas/tools/geocoding.py` (absent from the provided sources), spec
section 4.1.  If the raw result is `None`, or either half of the pair is
`None`, the output is a missing label with the empty point; otherwise in
forward mode the provider's `(lat, lon)` pair is swapped to an `(x, y) =
(lon, lat)` point, and in reverse mode the pair is taken unchanged. -/
def normalize (mode : Mode) (r : RawResult) : Option String × GPoint :=
  match r with
  | none => (none, GPoint.empty)
  | some (some l, some (a, b)) =>
    match mode with
    | Mode.forward => (some l, GPoint.pt b a)
    | Mode.reverse => (some l, GPoint.pt a b)
  | some _ => (none, GPoint.empty)

/-- One Result Record (spec section 3): key, nullable label, point geometry. -/
structure ResultRecord (κ : Type) where
  key : κ
  address : Option String
  geometry : GPoint
deriving DecidableEq

/-- The Result Table (spec section 3): a keyed collection of Result Records
plus a single table-level coordinate-reference-system tag. -/
structure ResultTable (κ : Type) where
  rows : List (ResultRecord κ)
  crs : String
deriving DecidableEq

/-- Modelled from the spec: the Result Table Builder half of
`_prepare_geocode_result` in `geopandas/tools/geocoding.py` (absent from the
provided sources), spec section 4.2.  Folds a keyed mapping of normalized
`(label, point)` pairs into the Result Table, attaching the fixed CRS tag
unconditionally. -/
def buildTable {κ : Type} (entries : List (κ × (Option String × GPoint))) :
    ResultTable κ :=
  { rows := entries.map (fun e => ⟨e.1, e.2.1, e.2.2⟩), crs := "EPSG:4326" }

/-- Modelled from the spec: `_prepare_geocode_result` of
`geopandas/tools/geocoding.py` (absent from the provided sources), spec
sections 4.1 and 4.2.  Normalizes each keyed raw provider result with the
given mode and builds the Result Table. -/
def _prepare_geocode_result {κ : Type} (mode : Mode)
    (results : List (κ × RawResult)) : ResultTable κ :=
  buildTable (results.map (fun e => (e.1, normalize mode e.2)))

/-- Modelled from the spec: the provider collaborator (spec section 6), a
small interface with a synchronous forward operation and a synchronous
reverse operation.  Both are stateful (the test mocks count calls) and may
raise, modelled as an `Except.error`. -/
structure Provider (St : Type) where
  forwardOp : St → String → Except String RawResult × St
  reverseOp : St → (ℚ × ℚ) → Except String RawResult × St

/-- Provider selection (spec sections 4.3 and 9): either a registry name or a
provider instance (with its initial state). -/
inductive ProviderSel (St : Type) where
  | byName (name : String) : ProviderSel St
  | byInstance (p : Provider St) (st : St) : ProviderSel St

/-- Errors surfaced by the drivers (spec section 7): the fatal configuration
error for an unknown provider name, or an uncaught per-query provider
exception. -/
inductive GeoError where
  | providerNotFound (name : String) : GeoError
  | providerExn (e : String) : GeoError
deriving DecidableEq

/-- Modelled from the spec: the named-provider lookup (spec section 9), a
registry from name to provider that yields a typed not-found error. -/
def resolveProvider {St : Type} (registry : String → Option (Provider St × St)) :
    ProviderSel St → Except GeoError (Provider St × St)
  | ProviderSel.byName n =>
    match registry n with
    | some p => Except.ok p
    | none => Except.error (GeoError.providerNotFound n)
  | ProviderSel.byInstance p st => Except.ok (p, st)

/-- Modelled from the spec: the per-query provider invocation loop of
`_query` in `geopandas/tools/geocoding.py` (absent from the provided
sources), spec sections 4.3 and 5.  Processes the keyed queries one at a
time, in input order, threading the provider state; collects the raw results
keyed by input identity, or stops at the first provider exception, which is
not caught.  Also returns the trace of queries actually submitted. -/
def runLoop {κ σ St : Type} (op : St → σ → Except String RawResult × St) :
    St → List (κ × σ) → Except String (List (κ × RawResult)) × List σ
  | _, [] => (Except.ok [], [])
  | st, (k, q) :: rest =>
    match op st q with
    | (Except.error e, _) => (Except.error e, [q])
    | (Except.ok r, st') =>
      match runLoop op st' rest with
      | (Except.error e, tr) => (Except.error e, q :: tr)
      | (Except.ok l, tr) => (Except.ok ((k, r) :: l), q :: tr)

/-- Modelled from the spec: `geocode` of `geopandas/tools/geocoding.py`
(absent from the provided sources), spec section 4.3.  Resolves the provider
(failing before any per-query work on an unknown name), runs the forward
loop, normalizes in forward mode and builds the Result Table.  The second
component is the trace of addresses submitted to the provider. -/
def geocode {κ St : Type} (registry : String → Option (Provider St × St))
    (sel : ProviderSel St) (queries : List (κ × String)) :
    Except GeoError (ResultTable κ) × List String :=
  match resolveProvider registry sel with
  | Except.error e => (Except.error e, [])
  | Except.ok (p, st) =>
    match runLoop p.forwardOp st queries with
    | (Except.error e, tr) => (Except.error (GeoError.providerExn e), tr)
    | (Except.ok raws, tr) => (Except.ok (_prepare_geocode_result Mode.forward raws), tr)

/-- Modelled from the spec: `reverse_geocode` of
`geopandas/tools/geocoding.py` (absent from the provided sources), spec
section 4.3.  As `geocode`, but queries are points, the reverse operation is
invoked and normalization uses reverse mode (no coordinate swap). -/
def reverse_geocode {κ St : Type} (registry : String → Option (Provider St × St))
    (sel : ProviderSel St) (queries : List (κ × (ℚ × ℚ))) :
    Except GeoError (ResultTable κ) × List (ℚ × ℚ) :=
  match resolveProvider registry sel with
  | Except.error e => (Except.error e, [])
  | Except.ok (p, st) =>
    match runLoop p.reverseOp st queries with
    | (Except.error e, tr) => (Except.error (GeoError.providerExn e), tr)
    | (Except.ok raws, tr) => (Except.ok (_prepare_geocode_result Mode.reverse raws), tr)

/-- The `ForwardMock` provider of `geopandas/tests/test_geocode.py`: its
forward operation returns the passed-in address as label together with the
coordinate pair `(p, p + 0.5)` where the counter `p` increases at each call. -/
def ForwardMock : Provider ℚ where
  forwardOp := fun n addr => (Except.ok (some (some addr, some (n, n + 1/2))), n + 1)
  reverseOp := fun n _ => (Except.ok none, n)

/-- The `ReverseMock` provider of `geopandas/tests/test_geocode.py`: its
reverse operation returns the label `"address" ++ p` together with the
passed-in point, where the counter `p` increases at each call. -/
def ReverseMock : Provider ℕ where
  forwardOp := fun n _ => (Except.ok none, n)
  reverseOp := fun n q => (Except.ok (some (some ("address" ++ toString n), some q)), n + 1)

/-- The label sequence produced by a stateful provider whose label function
is `lbl` and whose state update is `nxt`, over a list of queries. -/
def labelTrace {σ St : Type} (lbl : St → σ → String) (nxt : St → σ → St) :
    St → List σ → List String
  | _, [] => []
  | st, q :: rest => lbl st q :: labelTrace lbl nxt (nxt st q) rest

/-- The keyed raw results produced by an echoing reverse provider: for each
query the label `lbl st q` and the query point itself. -/
def echoRaws {κ St : Type} (lbl : St → (ℚ × ℚ) → String) (nxt : St → (ℚ × ℚ) → St) :
    St → List (κ × (ℚ × ℚ)) → List (κ × RawResult)
  | _, [] => []
  | st, (k, q) :: rest =>
    (k, some (some (lbl st q), some q)) :: echoRaws lbl nxt (nxt st q) rest

end Geocoding

namespace ShowVersions

/-- The fixed dependency-name list of `_get_deps_info` in
`geopandas/tools/_show_versions.py` (lines 104-121). -/
def deps : List String :=
  ["geopandas", "numpy", "pandas", "pyproj", "shapely", "pyogrio",
   "geoalchemy2", "geopy", "matplotlib", "mapclassify", "fiona",
   "psycopg", "psycopg2", "pyarrow"]

/-- Embedding of `_get_deps_info` from `geopandas/tools/_show_versions.py`
(lines 96-139).  The Python environment is abstracted as a function `env`
from module name to `Except`: `Except.ok v` when the module can be imported
(or is already loaded) and its `__version__` read as `v`, `Except.error`
when the import or the version read raises.  The `try`/`except` around the
loop body maps any such exception to the entry `None`; every dependency name
is assigned exactly once, in the fixed order. -/
def _get_deps_info (env : String → Except String String) :
    List (String × Option String) :=
  deps.map (fun modname =>
    (modname, match env modname with
              | Except.ok ver => some ver
              | Except.error _ => none))

end ShowVersions

namespace Geocoding

/-- C1: For every non-empty raw provider result `(label, (a, b))` normalized
in forward mode, the resulting geometry is a point whose x-coordinate equals
`b` and whose y-coordinate equals `a` (the normalizer swaps the provider's
`(lat, lon)` ordering into `(lon, lat)`). -/
theorem forward_normalize_swaps (l : String) (a b : ℚ) :
    normalize Mode.forward (some (some l, some (a, b))) = (some l, GPoint.pt b a) := rfl

/-- C2: For every raw provider result that is exactly `None`, or a pair with
either element `None`, the normalized record has a missing label and the
empty (zero-coordinate) point geometry, in both modes; the normalizer is a
total function, so no exception is raised on this path. -/
theorem normalize_missing (m : Mode) :
    normalize m none = (none, GPoint.empty)
    ∧ (∀ c : Option (ℚ × ℚ), normalize m (some (none, c)) = (none, GPoint.empty))
    ∧ (∀ l : Option String, normalize m (some (l, none)) = (none, GPoint.empty)) := by
  refine ⟨rfl, fun c => ?_, fun l => ?_⟩
  · rcases c with _ | ⟨a, b⟩ <;> rfl
  · rcases l with _ | l <;> rfl

/-- C3: For every input mapping of `n` query keys to raw results, the
assembled Result Table has exactly `n` rows and its key list equals the input
key list, in order — no key is dropped, duplicated or reordered, no matter
how many results are missing. -/
theorem prepare_result_keys {κ : Type} (m : Mode) (results : List (κ × RawResult)) :
    (_prepare_geocode_result m results).rows.length = results.length
    ∧ (_prepare_geocode_result m results).rows.map ResultRecord.key
        = results.map Prod.fst := by
  refine ⟨by simp [_prepare_geocode_result, buildTable], ?_⟩
  induction results with
  | nil => rfl
  | cons e rest ih =>
    simp only [_prepare_geocode_result, buildTable, List.map_cons] at ih ⊢
    simp [ih]

/-- C4: For every input, including an all-missing input and a zero-query
input, the assembled Result Table carries the coordinate reference system tag
EPSG:4326 as a table-level property. -/
theorem prepare_result_crs {κ : Type} (m : Mode) (results : List (κ × RawResult)) :
    (_prepare_geocode_result m results).crs = "EPSG:4326" := rfl

/-- Every run of the per-query loop either completes in full (collecting one
raw result per query, keys preserved, every query submitted in order) or
stops at some failing query, returning the provider's error and having
submitted exactly the queries up to and including the failing one. -/
theorem runLoop_exhaust {κ σ St : Type} (op : St → σ → Except String RawResult × St)
    (st : St) (qs : List (κ × σ)) :
    (∃ rs, runLoop op st qs = (Except.ok rs, qs.map Prod.snd)
        ∧ rs.map Prod.fst = qs.map Prod.fst)
    ∨ (∃ e n, n < qs.length
        ∧ runLoop op st qs = (Except.error e, (qs.take (n + 1)).map Prod.snd)) := by
  induction qs generalizing st with
  | nil => exact Or.inl ⟨[], rfl, rfl⟩
  | cons kq rest ih =>
    obtain ⟨k, q⟩ := kq
    rcases hop : op st q with ⟨res, st'⟩
    cases res with
    | error e =>
      refine Or.inr ⟨e, 0, Nat.succ_pos _, ?_⟩
      simp [runLoop, hop]
    | ok r =>
      rcases ih st' with ⟨rs, hrs, hkeys⟩ | ⟨e, n, hn, herr⟩
      · exact Or.inl ⟨(k, r) :: rs, by simp [runLoop, hop, hrs], by simp [hkeys]⟩
      · refine Or.inr ⟨e, n + 1, by simpa using hn, ?_⟩
        simp [runLoop, hop, herr]

end Geocoding

namespace Geocoding

/-- C6: For every call of `geocode` or `reverse_geocode` with an unknown
provider name, the configuration (provider not found) error is raised
immediately, before any per-query work, with zero calls made to any
provider operation (the trace of submitted queries is empty). -/
theorem unknown_provider_immediate {κ St : Type}
    (registry : String → Option (Provider St × St)) (name : String)
    (h : registry name = none)
    (fqs : List (κ × String)) (rqs : List (κ × (ℚ × ℚ))) :
    geocode registry (ProviderSel.byName name) fqs
      = (Except.error (GeoError.providerNotFound name), [])
    ∧ reverse_geocode registry (ProviderSel.byName name) rqs
      = (Except.error (GeoError.providerNotFound name), []) := by
  constructor <;> simp [geocode, reverse_geocode, resolveProvider, h]

/-- Witness for C6: the registry that knows no provider, queried as in the
test-suite with the name "badprovider". -/
theorem unknown_provider_immediate_witness :
    geocode (fun _ => (none : Option (Provider ℚ × ℚ)))
        (ProviderSel.byName "badprovider") [((0 : ℕ), "cambridge, ma")]
      = (Except.error (GeoError.providerNotFound "badprovider"), [])
    ∧ reverse_geocode (fun _ => (none : Option (Provider ℚ × ℚ)))
        (ProviderSel.byName "badprovider") [((0 : ℕ), ((0 : ℚ), (0 : ℚ)))]
      = (Except.error (GeoError.providerNotFound "badprovider"), []) :=
  unknown_provider_immediate (fun _ => none) "badprovider" rfl
    [((0 : ℕ), "cambridge, ma")] [((0 : ℕ), ((0 : ℚ), (0 : ℚ)))]

/-- C7: For every batch, forward or reverse, if the provider raises on some
query the driver does not catch it: the exception propagates to the caller
and no queries after the failing one are submitted — a batch either
completes in full sequential order (every query submitted, in order) or
aborts on the first unhandled provider exception (the trace stops at the
failing query).  Stated for both `geocode` and `reverse_geocode`. -/
theorem batch_completes_or_aborts {κ St : Type}
    (registry : String → Option (Provider St × St)) (p : Provider St) (st : St)
    (fqs : List (κ × String)) (rqs : List (κ × (ℚ × ℚ))) :
    ((∃ t, geocode registry (ProviderSel.byInstance p st) fqs
        = (Except.ok t, fqs.map Prod.snd))
     ∨ (∃ e n, n < fqs.length
        ∧ geocode registry (ProviderSel.byInstance p st) fqs
          = (Except.error (GeoError.providerExn e), (fqs.take (n + 1)).map Prod.snd)))
    ∧ ((∃ t, reverse_geocode registry (ProviderSel.byInstance p st) rqs
        = (Except.ok t, rqs.map Prod.snd))
     ∨ (∃ e n, n < rqs.length
        ∧ reverse_geocode registry (ProviderSel.byInstance p st) rqs
          = (Except.error (GeoError.providerExn e), (rqs.take (n + 1)).map Prod.snd))) := by
  constructor
  · rcases runLoop_exhaust p.forwardOp st fqs with ⟨rs, hrs, -⟩ | ⟨e, n, hn, herr⟩
    · exact Or.inl ⟨_prepare_geocode_result Mode.forward rs,
        by simp [geocode, resolveProvider, hrs]⟩
    · exact Or.inr ⟨e, n, hn, by simp [geocode, resolveProvider, herr]⟩
  · rcases runLoop_exhaust p.reverseOp st rqs with ⟨rs, hrs, -⟩ | ⟨e, n, hn, herr⟩
    · exact Or.inl ⟨_prepare_geocode_result Mode.reverse rs,
        by simp [reverse_geocode, resolveProvider, hrs]⟩
    · exact Or.inr ⟨e, n, hn, by simp [reverse_geocode, resolveProvider, herr]⟩

/-- C9: For every batch of queries and provider behavior, calling `geocode`
(or `reverse_geocode`) with the provider identified by its registry name
produces the same result (table and trace) as passing the provider instance
directly. -/
theorem name_instance_equivalent {κ St : Type}
    (registry : String → Option (Provider St × St)) (name : String)
    (p : Provider St) (st : St) (h : registry name = some (p, st))
    (fqs : List (κ × String)) (rqs : List (κ × (ℚ × ℚ))) :
    geocode registry (ProviderSel.byName name) fqs
      = geocode registry (ProviderSel.byInstance p st) fqs
    ∧ reverse_geocode registry (ProviderSel.byName name) rqs
      = reverse_geocode registry (ProviderSel.byInstance p st) rqs := by
  constructor <;> simp [geocode, reverse_geocode, resolveProvider, h]

/-- Witness for C9: a registry resolving "photon" to the ForwardMock
provider, on one forward and one reverse query. -/
theorem name_instance_equivalent_witness :
    geocode (fun n => if n = "photon" then some (ForwardMock, (0 : ℚ)) else none)
        (ProviderSel.byName "photon") [((0 : ℕ), "260 Broadway, New York, NY")]
      = geocode (fun n => if n = "photon" then some (ForwardMock, (0 : ℚ)) else none)
          (ProviderSel.byInstance ForwardMock 0) [((0 : ℕ), "260 Broadway, New York, NY")]
    ∧ reverse_geocode (fun n => if n = "photon" then some (ForwardMock, (0 : ℚ)) else none)
        (ProviderSel.byName "photon") [((0 : ℕ), ((1 : ℚ), (2 : ℚ)))]
      = reverse_geocode (fun n => if n = "photon" then some (ForwardMock, (0 : ℚ)) else none)
          (ProviderSel.byInstance ForwardMock 0) [((0 : ℕ), ((1 : ℚ), (2 : ℚ)))] :=
  name_instance_equivalent (fun n => if n = "photon" then some (ForwardMock, (0 : ℚ)) else none)
    "photon" ForwardMock 0 (by simp) [((0 : ℕ), "260 Broadway, New York, NY")]
    [((0 : ℕ), ((1 : ℚ), (2 : ℚ)))]

end Geocoding

namespace Geocoding

/-- For a provider whose reverse operation returns the label `lbl st q` and
the input point itself, the loop completes, collecting exactly the echoed raw
results and submitting every query in order. -/
theorem runLoop_echo {κ St : Type} (p : Provider St)
    (lbl : St → (ℚ × ℚ) → String) (nxt : St → (ℚ × ℚ) → St)
    (h : ∀ st q, p.reverseOp st q
        = (Except.ok (some (some (lbl st q), some q)), nxt st q))
    (st : St) (qs : List (κ × (ℚ × ℚ))) :
    runLoop p.reverseOp st qs
      = (Except.ok (echoRaws lbl nxt st qs), qs.map Prod.snd) := by
  induction qs generalizing st with
  | nil => rfl
  | cons kq rest ih =>
    obtain ⟨k, q⟩ := kq
    simp [runLoop, h st q, echoRaws, ih (nxt st q)]

/-- The Result Table built in reverse mode from echoed raw results has the
input points as its geometry column and the provider labels as its address
column. -/
theorem echo_columns {κ St : Type}
    (lbl : St → (ℚ × ℚ) → String) (nxt : St → (ℚ × ℚ) → St)
    (st : St) (qs : List (κ × (ℚ × ℚ))) :
    (_prepare_geocode_result Mode.reverse (echoRaws lbl nxt st qs)).rows.map
        ResultRecord.geometry
      = qs.map (fun e => GPoint.pt e.2.1 e.2.2)
    ∧ (_prepare_geocode_result Mode.reverse (echoRaws lbl nxt st qs)).rows.map
        ResultRecord.address
      = (labelTrace lbl nxt st (qs.map Prod.snd)).map some := by
  induction qs generalizing st with
  | nil => exact ⟨rfl, rfl⟩
  | cons kq rest ih =>
    obtain ⟨k, x, y⟩ := kq
    obtain ⟨ihg, iha⟩ := ih (nxt st (x, y))
    have hrows : (_prepare_geocode_result Mode.reverse
          (echoRaws lbl nxt st ((k, (x, y)) :: rest))).rows
        = ⟨k, some (lbl st (x, y)), GPoint.pt x y⟩
          :: (_prepare_geocode_result Mode.reverse
                (echoRaws lbl nxt (nxt st (x, y)) rest)).rows := rfl
    constructor
    · simp only [hrows, List.map_cons, ihg]
    · simp only [hrows, List.map_cons, List.map_cons, labelTrace, iha]

/-- C5: For every non-empty raw result normalized in reverse mode, the
resulting point equals the point in the raw result unchanged (no coordinate
swap); and for `reverse_geocode` against a provider that resolves each input
point to a label and echoes the point back, the geometry column holds each
input point and the address column holds the provider's resolved labels. -/
theorem reverse_no_swap_and_echo {κ St : Type}
    (registry : String → Option (Provider St × St)) (p : Provider St)
    (lbl : St → (ℚ × ℚ) → String) (nxt : St → (ℚ × ℚ) → St) (st : St)
    (h : ∀ s q, p.reverseOp s q
        = (Except.ok (some (some (lbl s q), some q)), nxt s q))
    (qs : List (κ × (ℚ × ℚ))) :
    (∀ (l : String) (x y : ℚ),
        normalize Mode.reverse (some (some l, some (x, y))) = (some l, GPoint.pt x y))
    ∧ ∃ t, reverse_geocode registry (ProviderSel.byInstance p st) qs
            = (Except.ok t, qs.map Prod.snd)
        ∧ t.rows.map ResultRecord.geometry = qs.map (fun e => GPoint.pt e.2.1 e.2.2)
        ∧ t.rows.map ResultRecord.address
            = (labelTrace lbl nxt st (qs.map Prod.snd)).map some := by
  obtain ⟨hg, ha⟩ := echo_columns lbl nxt st qs
  exact ⟨fun l x y => rfl,
    ⟨_prepare_geocode_result Mode.reverse (echoRaws lbl nxt st qs),
      by simp [reverse_geocode, resolveProvider, runLoop_echo p lbl nxt h st qs],
      hg, ha⟩⟩

/-- Witness for C5: the ReverseMock provider on the two test points. -/
theorem reverse_no_swap_and_echo_witness :
    (∀ (l : String) (x y : ℚ),
        normalize Mode.reverse (some (some l, some (x, y))) = (some l, GPoint.pt x y))
    ∧ ∃ t, reverse_geocode (fun _ => (none : Option (Provider ℕ × ℕ)))
            (ProviderSel.byInstance ReverseMock 0)
            [((0 : ℕ), ((-71 : ℚ), (42 : ℚ))), (1, (-77, 38))]
          = (Except.ok t, [((-71 : ℚ), (42 : ℚ)), (-77, 38)])
        ∧ t.rows.map ResultRecord.geometry
            = [GPoint.pt (-71) 42, GPoint.pt (-77) 38]
        ∧ t.rows.map ResultRecord.address
            = (labelTrace (fun n _ => "address" ++ toString n) (fun n _ => n + 1) 0
                [((-71 : ℚ), (42 : ℚ)), (-77, 38)]).map some :=
  reverse_no_swap_and_echo (fun _ => none) ReverseMock
    (fun n _ => "address" ++ toString n) (fun n _ => n + 1) 0
    (fun _ _ => rfl) [((0 : ℕ), ((-71 : ℚ), (42 : ℚ))), (1, (-77, 38))]

end Geocoding

namespace Geocoding

/-- If the provider operation never raises, the loop submits every query, in
input order. -/
theorem runLoop_total_trace {κ σ St : Type}
    (op : St → σ → Except String RawResult × St)
    (h : ∀ st q, ∃ r st', op st q = (Except.ok r, st'))
    (st : St) (qs : List (κ × σ)) :
    (runLoop op st qs).2 = qs.map Prod.snd := by
  induction qs generalizing st with
  | nil => rfl
  | cons kq rest ih =>
    obtain ⟨k, q⟩ := kq
    obtain ⟨r, st', hop⟩ := h st q
    rcases hr : runLoop op st' rest with ⟨res, tr⟩
    have htr : tr = rest.map Prod.snd := by simpa [hr] using ih st'
    cases res <;> simp [runLoop, hop, hr, htr]

/-- C8: For every forward-geocoding batch of `n` address queries against a
provider that does not raise, the provider's forward operation is invoked
exactly `n` times, once per query in input order (the trace of submitted
addresses equals the input address list); and concretely, geocoding two
addresses against the ForwardMock provider — which returns `(0, 0.5)` then
`(1, 1.5)` — yields geometries `(0.5, 0)` and `(1.5, 1)` (post-swap) with
the address column equal to the labels returned by the provider. -/
theorem forward_calls_once_per_query {κ St : Type}
    (registry : String → Option (Provider St × St)) (p : Provider St) (st : St)
    (h : ∀ s q, ∃ r s', p.forwardOp s q = (Except.ok r, s'))
    (qs : List (κ × String)) :
    (geocode registry (ProviderSel.byInstance p st) qs).2 = qs.map Prod.snd
    ∧ geocode (fun _ => (none : Option (Provider ℚ × ℚ)))
        (ProviderSel.byInstance ForwardMock 0) [((0 : ℕ), "addr0"), (1, "addr1")]
      = (Except.ok ⟨[⟨0, some "addr0", GPoint.pt (1/2) 0⟩,
                     ⟨1, some "addr1", GPoint.pt (3/2) 1⟩], "EPSG:4326"⟩,
         ["addr0", "addr1"]) := by
  constructor
  · have htr := runLoop_total_trace p.forwardOp h st qs
    rcases hr : runLoop p.forwardOp st qs with ⟨res, tr⟩
    have htr' : tr = qs.map Prod.snd := by simpa [hr] using htr
    cases res <;> simp [geocode, resolveProvider, hr, htr']
  · norm_num [geocode, resolveProvider, runLoop, ForwardMock,
      _prepare_geocode_result, buildTable, normalize]

/-- Witness for C8: the ForwardMock provider, which never raises, on the two
addresses of the concrete scenario. -/
theorem forward_calls_once_per_query_witness :
    (geocode (fun _ => (none : Option (Provider ℚ × ℚ)))
        (ProviderSel.byInstance ForwardMock 0)
        [((0 : ℕ), "addr0"), (1, "addr1")]).2 = ["addr0", "addr1"]
    ∧ geocode (fun _ => (none : Option (Provider ℚ × ℚ)))
        (ProviderSel.byInstance ForwardMock 0) [((0 : ℕ), "addr0"), (1, "addr1")]
      = (Except.ok ⟨[⟨0, some "addr0", GPoint.pt (1/2) 0⟩,
                     ⟨1, some "addr1", GPoint.pt (3/2) 1⟩], "EPSG:4326"⟩,
         ["addr0", "addr1"]) :=
  forward_calls_once_per_query (fun _ => none) ForwardMock 0
    (fun s q => ⟨some (some q, some (s, s + 1/2)), s + 1, rfl⟩)
    [((0 : ℕ), "addr0"), (1, "addr1")]

end Geocoding

namespace ShowVersions

/-- C10: `_get_deps_info` never raises (it is a total function of the
environment): for every environment its key list is exactly the fixed
dependency-name list, and every entry maps its module name to the module's
version string, or to `none` when the import or the version read fails. -/
theorem deps_info_total (env : String → Except String String)
    (p : String × Option String) (hp : p ∈ _get_deps_info env) :
    (_get_deps_info env).map Prod.fst = deps
    ∧ p.2 = (env p.1).toOption := by
  constructor
  · rfl
  · obtain ⟨m, hm, rfl⟩ := List.mem_map.mp hp
    cases henv : env m <;> simp [Except.toOption, henv]

/-- Witness for C10: an environment where only numpy is importable, at the
numpy entry of the resulting mapping. -/
theorem deps_info_total_witness :
    (_get_deps_info (fun m =>
        if m = "numpy" then Except.ok "1.26.4" else Except.error "import failed")).map
        Prod.fst = deps
    ∧ (("numpy", some "1.26.4") : String × Option String).2
        = ((fun m => if m = "numpy" then Except.ok "1.26.4"
                     else Except.error "import failed") "numpy").toOption :=
  deps_info_total
    (fun m => if m = "numpy" then Except.ok "1.26.4" else Except.error "import failed")
    ("numpy", some "1.26.4") (by simp [_get_deps_info, deps])

end ShowVersions
